import Mathlib

/-!
Shallow embedding of `src/tek_mdo/main.py`: a thin VISA driver layer for a
Tektronix MDO34 oscilloscope.  The catalog methods of `ModelMDO34` validate
their arguments locally and then format and transmit SCPI command strings.

Modelling choices:
* Numeric parameters (`int | float` in Python) are embedded as `ℚ`.  Every
  comparison the code performs on them (`<=`, `<`, range checks) is an exact
  decimal comparison at the granularity the claims are about, so the rational
  embedding is faithful for those comparisons.
* A transmitted SCPI message is represented structurally by `ScpiMsg`: one
  constructor per f-string template in the source, carrying exactly the values
  interpolated into that template.  The decimal rendering of the interpolated
  floats (`:.4E`, `:.3E`, `:.3f`, `!r`) is IEEE-754 float formatting performed
  by the Python runtime and is not re-implemented; the constructors record the
  template and its payload.
* Python exceptions are embedded as `PyErr`, keeping only the exception class
  (`ValueError` vs `InstrIOError`), since the message texts interpolate float
  `repr`s.  A method of the catalog is embedded as a function returning
  `List ScpiMsg × Except PyErr α`: the list is the sequence of messages
  transmitted over the session during the call (in order), and the second
  component is the returned value or the escaping exception.
* Query methods additionally take the text response the instrument would send
  back (`resp : String`), since the repository performs no transport logic of
  its own.
-/

namespace TekMDO

/-- The exception classes raised by the code, by kind.  `valueError` embeds
Python's builtin `ValueError`; `instrIOError` embeds the module's
`InstrIOError(Error)` class (`src/tek_mdo/main.py`, lines 30-39). -/
inductive PyErr where
  | valueError
  | instrIOError
deriving DecidableEq, Repr

/-- A SCPI message, one constructor per f-string template in `ModelMDO34`
(and `VisaInstrument` helpers), carrying the values interpolated into it. -/
inductive ScpiMsg where
  /-- `CH{ch_num:d}:LABel "{label}"` -/
  | chLabel (ch : ℤ) (label : String)
  /-- `CH{ch_num:d}:LABel?` -/
  | chLabelQ (ch : ℤ)
  /-- `CH{ch_num:d}:COUPling {coupling}` -/
  | chCoupling (ch : ℤ) (coupling : String)
  /-- `CH{ch_num:d}:COUPling?` -/
  | chCouplingQ (ch : ℤ)
  /-- `CH{ch_num:d}:BANdwidth {bandwidth:.4E}` -/
  | chBandwidth (ch : ℤ) (bandwidth : ℚ)
  /-- `CH{ch_num:d}:BANdwidth?` -/
  | chBandwidthQ (ch : ℤ)
  /-- `CH{ch_num:d}:SCAle {scale:.3E}` -/
  | chScale (ch : ℤ) (scale : ℚ)
  /-- `CH{ch_num:d}:SCAle?` -/
  | chScaleQ (ch : ℤ)
  /-- `CH{ch_num:d}:POSition {position:.3f}` -/
  | chPosition (ch : ℤ) (position : ℚ)
  /-- `CH{ch_num:d}:POSition?` -/
  | chPositionQ (ch : ℤ)
  /-- `MATH{num:d}:TYPe {math_type}` -/
  | mathType (num : ℤ) (math_type : String)
  /-- `MATH{num:d}:TYPe?` -/
  | mathTypeQ (num : ℤ)
  /-- `MATH{num}:DEFine "{function}"` -/
  | mathDefine (num : ℤ) (function : String)
  /-- `MATH{num:d}:DEFine?` -/
  | mathDefineQ (num : ℤ)
  /-- `HORizontal:SCAle {scale:.4E}` -/
  | horizontalScale (scale : ℚ)
  /-- `HORizontal:SCAle?` -/
  | horizontalScaleQ
  /-- `HORizontal:POSition {position!r}` -/
  | horizontalPosition (position : ℚ)
  /-- `HORizontal:POSition?` -/
  | horizontalPositionQ
deriving DecidableEq, Repr

/-- The result of one catalog method call: the messages transmitted over the
session during the call, in order, and the returned value or the escaping
exception. -/
abbrev MRes (α : Type) := List ScpiMsg × Except PyErr α

/-- Characters stripped by Python's `str.strip()` with no argument (the ASCII
whitespace characters; the code's responses are ASCII by configuration). -/
def isPySpace (c : Char) : Bool :=
  c == ' ' || c == '\t' || c == '\n' || c == '\r' ||
  c == Char.ofNat 11 || c == Char.ofNat 12

/-- Python `str.strip`: drop from both ends every leading/trailing character
satisfying `p`. -/
def pyStrip (p : Char → Bool) (s : String) : String :=
  ⟨((s.data.dropWhile p).reverse.dropWhile p).reverse⟩

/-- Python `s.strip()`. -/
def pyStripWs (s : String) : String := pyStrip isPySpace s

/-- Python `s.strip('"')`. -/
def pyStripQuotes (s : String) : String := pyStrip (· == '"') s

/-- Fold a digit list into the natural number it denotes. -/
def digitsToNat (ds : List Char) : ℕ :=
  ds.foldl (fun acc c => acc * 10 + (c.toNat - '0'.toNat)) 0

/-- Split off the leading run of decimal digits. -/
def takeDigits (cs : List Char) : List Char × List Char :=
  (cs.takeWhile Char.isDigit, cs.dropWhile Char.isDigit)

/-- Consume an optional leading sign, returning whether it was `-`. -/
def takeSign : List Char → Bool × List Char
  | '+' :: rest => (false, rest)
  | '-' :: rest => (true, rest)
  | cs => (false, cs)

/-- Models Python's builtin `float(s)` on finite decimal literals: optional
surrounding whitespace, an optional sign, digits with an optional single
decimal point, and an optional `e`/`E` exponent part.  A malformed string
raises `ValueError`, as `float` does.  (The special values `inf`/`nan` and
digit-group underscores, which `float` also accepts, do not occur in the
instrument responses the code parses and are outside this model.) -/
def pyFloat (s : String) : Except PyErr ℚ :=
  let cs := (pyStripWs s).data
  let (neg, cs) := takeSign cs
  let (intds, cs) := takeDigits cs
  let (fracds, cs) :=
    match cs with
    | '.' :: rest => takeDigits rest
    | _ => ([], cs)
  if intds.isEmpty && fracds.isEmpty then .error .valueError
  else
    let mantissa : ℚ := (digitsToNat (intds ++ fracds) : ℚ) / 10 ^ fracds.length
    match cs with
    | [] => .ok (if neg then -mantissa else mantissa)
    | e :: rest =>
      if e == 'e' || e == 'E' then
        let (eneg, rest) := takeSign rest
        let (eds, rest) := takeDigits rest
        if eds.isEmpty || !rest.isEmpty then .error .valueError
        else
          let ex : ℚ := if eneg then (10 ^ digitsToNat eds : ℚ)⁻¹ else 10 ^ digitsToNat eds
          .ok (if neg then -(mantissa * ex) else mantissa * ex)
      else .error .valueError

/-- `ModelMDO34.CH_NUMS = (1, 2, 3, 4)`. -/
def CH_NUMS : List ℤ := [1, 2, 3, 4]

/-- `ModelMDO34._check_ch_num`: raise `ValueError` when `ch_num` is not a
member of `CH_NUMS`. -/
def checkChNum (ch_num : ℤ) : Except PyErr Unit :=
  if ch_num ∈ CH_NUMS then .ok () else .error .valueError

/-- `ModelMDO34.set_channel_label`.  (The `isinstance(label, str)` half of the
guard is discharged by the embedding's types; the length bound is kept.) -/
def set_channel_label (ch_num : ℤ) (label : String) : MRes Unit :=
  match checkChNum ch_num with
  | .error e => ([], .error e)
  | .ok () =>
    if label.length > 30 then ([], .error .valueError)
    else ([.chLabel ch_num label], .ok ())

/-- `ModelMDO34.get_channel_label`: query, then `.strip().strip('"')`. -/
def get_channel_label (ch_num : ℤ) (resp : String) : MRes String :=
  match checkChNum ch_num with
  | .error e => ([], .error e)
  | .ok () => ([.chLabelQ ch_num], .ok (pyStripQuotes (pyStripWs resp)))

/-- The coupling values accepted by `set_channel_coupling`. -/
def COUPLINGS : List String := ["AC", "DC", "DCREJect"]

/-- `ModelMDO34.set_channel_coupling`. -/
def set_channel_coupling (ch_num : ℤ) (coupling : String) : MRes Unit :=
  match checkChNum ch_num with
  | .error e => ([], .error e)
  | .ok () =>
    if coupling ∈ COUPLINGS then ([.chCoupling ch_num coupling], .ok ())
    else ([], .error .valueError)

/-- `ModelMDO34.get_channel_coupling`: query, then `.strip()` (no quote
stripping in the source). -/
def get_channel_coupling (ch_num : ℤ) (resp : String) : MRes String :=
  match checkChNum ch_num with
  | .error e => ([], .error e)
  | .ok () => ([.chCouplingQ ch_num], .ok (pyStripWs resp))

/-- `ModelMDO34.set_channel_bandwidth`: reject `bandwidth <= 0`. -/
def set_channel_bandwidth (ch_num : ℤ) (bandwidth : ℚ) : MRes Unit :=
  match checkChNum ch_num with
  | .error e => ([], .error e)
  | .ok () =>
    if bandwidth ≤ 0 then ([], .error .valueError)
    else ([.chBandwidth ch_num bandwidth], .ok ())

/-- `ModelMDO34.get_channel_bandwidth`: query, then `float(...)`. -/
def get_channel_bandwidth (ch_num : ℤ) (resp : String) : MRes ℚ :=
  match checkChNum ch_num with
  | .error e => ([], .error e)
  | .ok () => ([.chBandwidthQ ch_num], pyFloat resp)

/-- `ModelMDO34.set_channel_scale`: reject `scale <= 0`. -/
def set_channel_scale (ch_num : ℤ) (scale : ℚ) : MRes Unit :=
  match checkChNum ch_num with
  | .error e => ([], .error e)
  | .ok () =>
    if scale ≤ 0 then ([], .error .valueError)
    else ([.chScale ch_num scale], .ok ())

/-- `ModelMDO34.get_channel_scale`: query, then `float(...)`. -/
def get_channel_scale (ch_num : ℤ) (resp : String) : MRes ℚ :=
  match checkChNum ch_num with
  | .error e => ([], .error e)
  | .ok () => ([.chScaleQ ch_num], pyFloat resp)

/-- `ModelMDO34.set_channel_position`: reject unless `-8 <= position <= 8`. -/
def set_channel_position (ch_num : ℤ) (position : ℚ) : MRes Unit :=
  match checkChNum ch_num with
  | .error e => ([], .error e)
  | .ok () =>
    if ¬(-8 ≤ position ∧ position ≤ 8) then ([], .error .valueError)
    else ([.chPosition ch_num position], .ok ())

/-- `ModelMDO34.get_channel_position`: query, then `float(...)`. -/
def get_channel_position (ch_num : ℤ) (resp : String) : MRes ℚ :=
  match checkChNum ch_num with
  | .error e => ([], .error e)
  | .ok () => ([.chPositionQ ch_num], pyFloat resp)

/-- The math types accepted by `set_math_channel_type`. -/
def MATH_TYPES : List String := ["DUAL", "FFT", "ADVanced", "SPECTRUM"]

/-- `ModelMDO34.set_math_channel_type`: validates `math_type` only; `num` is
interpolated into `MATH{num:d}:TYPe ...` with no check. -/
def set_math_channel_type (num : ℤ) (math_type : String) : MRes Unit :=
  if math_type ∉ MATH_TYPES then ([], .error .valueError)
  else ([.mathType num math_type], .ok ())

/-- `ModelMDO34.get_math_channel_type`: query; the response is returned
unmodified (no `.strip()` in the source). -/
def get_math_channel_type (num : ℤ) (resp : String) : MRes String :=
  ([.mathTypeQ num], .ok resp)

/-- `ModelMDO34.set_math_channel_function`: no validation at all. -/
def set_math_channel_function (num : ℤ) (function : String) : MRes Unit :=
  ([.mathDefine num function], .ok ())

/-- `ModelMDO34.get_math_channel_function`: query, then `.strip().strip('"')`. -/
def get_math_channel_function (num : ℤ) (resp : String) : MRes String :=
  ([.mathDefineQ num], .ok (pyStripQuotes (pyStripWs resp)))

/-- The lower bound `400 * 10E-12` in `set_x_scale`, as the exact rational
the Python expression denotes: `10E-12` is the float `10 × 10⁻¹² = 10⁻¹¹`,
so the bound evaluates to `4 × 10⁻⁹` (4 ns) — not `400 × 10⁻¹²` (400 ps),
the value the function's own error message names. -/
def xScaleLowerBound : ℚ := 400 * (10 / 10 ^ 12)

/-- `ModelMDO34.set_x_scale`: validate `400 * 10E-12 <= scale <= 1000`, then
build `cmd = f'HORizontal:SCAle {scale:.4E}'` — and return without ever
passing `cmd` to `self.command`.  The value component records the locally
built, never-transmitted command (the Python function returns `None`); the
message list records what was transmitted: nothing. -/
def set_x_scale (scale : ℚ) : MRes ScpiMsg :=
  if ¬(xScaleLowerBound ≤ scale ∧ scale ≤ 1000) then ([], .error .valueError)
  else ([], .ok (.horizontalScale scale))

/-- `ModelMDO34.get_x_scale`: query, then `float(...)`. -/
def get_x_scale (resp : String) : MRes ℚ :=
  ([.horizontalScaleQ], pyFloat resp)

/-- `ModelMDO34.set_x_position`: reject unless `0 <= position <= 100`. -/
def set_x_position (position : ℚ) : MRes Unit :=
  if ¬(0 ≤ position ∧ position ≤ 100) then ([], .error .valueError)
  else ([.horizontalPosition position], .ok ())

/-- `ModelMDO34.get_x_position`: query, then `float(...)`. -/
def get_x_position (resp : String) : MRes ℚ :=
  ([.horizontalPositionQ], pyFloat resp)

/-- What the `*IDN?` query inside `_check_communication` does: either the
transport raises `pyvisa.VisaIOError`, or a response string comes back. -/
inductive IdnOutcome where
  | visaIOError
  | response (s : String)
deriving DecidableEq, Repr

/-- `VisaInstrument._check_communication`.  The `try` block performs the
identity query and raises `ValueError("Empty IDN.")` when the response is
falsy (empty); the sole `except pyvisa.VisaIOError` clause converts only a
`VisaIOError` into `InstrIOError("Check communication failed.")`, so the
`ValueError` raised for an empty response propagates to the caller uncaught. -/
def checkCommunication (outcome : IdnOutcome) : Except PyErr Unit :=
  match outcome with
  | .visaIOError => .error .instrIOError
  | .response idn =>
    if idn = "" then .error .valueError
    else .ok ()

/-- `BaseInstrument.create`: run the constructor under a bare `except:` that
catches every exception; return the instance on success, `None` on any
failure.  The constructor's outcome is passed in as an `Except` value. -/
def create {α : Type} (ctor : Except PyErr α) : Option α :=
  match ctor with
  | .ok instance_ => some instance_
  | .error _ => none

/-! ## Theorems -/

/-- C1.  `set_x_scale` does not accept the whole interval `[400e-12, 1000]`:
at the concrete input `scale = 400e-12` (the spec's lower bound, and the value
the code's own error message calls "400 ps") the function raises `ValueError`,
because the Python expression `400 * 10E-12` evaluates to `4e-9`, strictly
above `400e-12`. -/
theorem set_x_scale_rejects_spec_lower_bound :
    set_x_scale (400 / 10 ^ 12) = ([], .error .valueError) ∧
    (400 / 10 ^ 12 : ℚ) < xScaleLowerBound := by
  refine ⟨?_, by norm_num [xScaleLowerBound]⟩
  have h : ¬(xScaleLowerBound ≤ (400 / 10 ^ 12 : ℚ) ∧ (400 / 10 ^ 12 : ℚ) ≤ 1000) := by
    norm_num [xScaleLowerBound]
  simp [set_x_scale, h]

/-- C2.  For every scale the validation accepts, `set_x_scale` builds the
`HORizontal:SCAle` command but transmits nothing: the list of messages sent
over the session during the call is empty. -/
theorem set_x_scale_builds_but_never_transmits (scale : ℚ)
    (h1 : xScaleLowerBound ≤ scale) (h2 : scale ≤ 1000) :
    set_x_scale scale = ([], .ok (.horizontalScale scale)) := by
  simp [set_x_scale, h1, h2]

/-- Witness for C2 at `scale = 1`. -/
theorem set_x_scale_builds_but_never_transmits_witness :
    xScaleLowerBound ≤ (1 : ℚ) ∧ (1 : ℚ) ≤ 1000 ∧
    set_x_scale 1 = ([], .ok (.horizontalScale 1)) :=
  ⟨by norm_num [xScaleLowerBound], by norm_num,
   set_x_scale_builds_but_never_transmits 1 (by norm_num [xScaleLowerBound]) (by norm_num)⟩

/-- C3.  When the identity query returns the empty string,
`_check_communication` raises `ValueError` — not `InstrIOError` — because the
`except pyvisa.VisaIOError` clause does not catch the `ValueError` raised
inside the `try` block. -/
theorem check_communication_empty_idn_raises_value_error :
    checkCommunication (.response "") = .error .valueError ∧
    PyErr.valueError ≠ PyErr.instrIOError :=
  ⟨rfl, by decide⟩

/-- C4.  For every channel number outside `{1, 2, 3, 4}`, each of the ten
channel-scoped setters/getters raises `ValueError` with nothing transmitted. -/
theorem invalid_ch_num_rejected_before_transmission (ch : ℤ) (h : ch ∉ CH_NUMS) :
    (∀ label, set_channel_label ch label = ([], .error .valueError)) ∧
    (∀ r, get_channel_label ch r = ([], .error .valueError)) ∧
    (∀ c, set_channel_coupling ch c = ([], .error .valueError)) ∧
    (∀ r, get_channel_coupling ch r = ([], .error .valueError)) ∧
    (∀ b, set_channel_bandwidth ch b = ([], .error .valueError)) ∧
    (∀ r, get_channel_bandwidth ch r = ([], .error .valueError)) ∧
    (∀ s, set_channel_scale ch s = ([], .error .valueError)) ∧
    (∀ r, get_channel_scale ch r = ([], .error .valueError)) ∧
    (∀ p, set_channel_position ch p = ([], .error .valueError)) ∧
    (∀ r, get_channel_position ch r = ([], .error .valueError)) := by
  simp [set_channel_label, get_channel_label, set_channel_coupling, get_channel_coupling,
        set_channel_bandwidth, get_channel_bandwidth, set_channel_scale, get_channel_scale,
        set_channel_position, get_channel_position, checkChNum, h]

/-- Witness for C4 at `ch = 5`. -/
theorem invalid_ch_num_rejected_before_transmission_witness :
    (5 : ℤ) ∉ CH_NUMS ∧ set_channel_label 5 "" = ([], .error .valueError) :=
  ⟨by decide, (invalid_ch_num_rejected_before_transmission 5 (by decide)).1 ""⟩

/-- C5.  For a valid channel, `set_channel_position` accepts exactly the
positions in `[-8, 8]` (boundaries included, transmitted as `CH<n>:POSition`);
anything outside raises `ValueError` with nothing transmitted. -/
theorem set_channel_position_domain (ch : ℤ) (hch : ch ∈ CH_NUMS) (p : ℚ) :
    (-8 ≤ p ∧ p ≤ 8 → set_channel_position ch p = ([.chPosition ch p], .ok ())) ∧
    (¬(-8 ≤ p ∧ p ≤ 8) → set_channel_position ch p = ([], .error .valueError)) := by
  constructor <;> intro h <;> simp [set_channel_position, checkChNum, hch, h]

/-- Witness for C5: the boundaries `-8` and `8` are accepted, `8.01` and
`-8.01` are rejected with nothing transmitted. -/
theorem set_channel_position_domain_witness :
    (1 : ℤ) ∈ CH_NUMS ∧
    set_channel_position 1 8 = ([.chPosition 1 8], .ok ()) ∧
    set_channel_position 1 (-8) = ([.chPosition 1 (-8)], .ok ()) ∧
    set_channel_position 1 (801 / 100) = ([], .error .valueError) ∧
    set_channel_position 1 (-801 / 100) = ([], .error .valueError) :=
  ⟨by decide,
   (set_channel_position_domain 1 (by decide) 8).1 (by norm_num),
   (set_channel_position_domain 1 (by decide) (-8)).1 (by norm_num),
   (set_channel_position_domain 1 (by decide) (801 / 100)).2 (by norm_num),
   (set_channel_position_domain 1 (by decide) (-801 / 100)).2 (by norm_num)⟩

/-- C6.  For a valid channel, `set_channel_bandwidth` and `set_channel_scale`
reject every non-positive value with nothing transmitted, and transmit the
formatted command for every positive value. -/
theorem bandwidth_scale_positive_domain (ch : ℤ) (hch : ch ∈ CH_NUMS) (x : ℚ) :
    (x ≤ 0 →
      set_channel_bandwidth ch x = ([], .error .valueError) ∧
      set_channel_scale ch x = ([], .error .valueError)) ∧
    (0 < x →
      set_channel_bandwidth ch x = ([.chBandwidth ch x], .ok ()) ∧
      set_channel_scale ch x = ([.chScale ch x], .ok ())) := by
  constructor
  · intro h
    simp [set_channel_bandwidth, set_channel_scale, checkChNum, hch, h]
  · intro h
    simp [set_channel_bandwidth, set_channel_scale, checkChNum, hch, not_le.mpr h]

/-- Witness for C6 at `ch = 1`, `x = 0` (rejected) and `x = 1` (sent). -/
theorem bandwidth_scale_positive_domain_witness :
    (1 : ℤ) ∈ CH_NUMS ∧
    set_channel_bandwidth 1 0 = ([], .error .valueError) ∧
    set_channel_scale 1 1 = ([.chScale 1 1], .ok ()) :=
  ⟨by decide,
   ((bandwidth_scale_positive_domain 1 (by decide) 0).1 (by norm_num)).1,
   ((bandwidth_scale_positive_domain 1 (by decide) 1).2 (by norm_num)).2⟩

/-- C7 counterexample.  `get_math_channel_type` returns the query response
unmodified: on the response `" FFT "` it returns `" FFT "`, which differs from
the strip-whitespace-then-strip-quotes normal form `"FFT"`. -/
theorem get_math_channel_type_not_stripped :
    (get_math_channel_type 1 " FFT ").2 = .ok " FFT " ∧
    " FFT " ≠ pyStripQuotes (pyStripWs " FFT ") :=
  ⟨rfl, by decide⟩

/-- C7 amended.  Among the string-valued getters, `get_channel_label` and
`get_math_channel_function` return the strip-whitespace-then-strip-quotes
normal form of the response; `get_channel_coupling` strips whitespace only;
`get_math_channel_type` returns the response unmodified. -/
theorem string_getters_normalization (ch : ℤ) (hch : ch ∈ CH_NUMS) (num : ℤ) (r : String) :
    (get_channel_label ch r).2 = .ok (pyStripQuotes (pyStripWs r)) ∧
    (get_channel_coupling ch r).2 = .ok (pyStripWs r) ∧
    (get_math_channel_type num r).2 = .ok r ∧
    (get_math_channel_function num r).2 = .ok (pyStripQuotes (pyStripWs r)) := by
  simp [get_channel_label, get_channel_coupling, get_math_channel_type,
        get_math_channel_function, checkChNum, hch]

/-- Witness for the amended C7 at `ch = 1`, `num = 1`, `r = " FFT "`. -/
theorem string_getters_normalization_witness :
    (1 : ℤ) ∈ CH_NUMS ∧
    (get_channel_label 1 " FFT ").2 = .ok (pyStripQuotes (pyStripWs " FFT ")) :=
  ⟨by decide, (string_getters_normalization 1 (by decide) 1 " FFT ").1⟩

/-- C8.  `create` either returns the successfully constructed instance or
`None`; no construction error propagates out of it. -/
theorem create_never_propagates {α : Type} (r : Except PyErr α) :
    (∃ i, r = .ok i ∧ create r = some i) ∨ create r = none := by
  cases r with
  | ok i => exact .inl ⟨i, rfl, rfl⟩
  | error e => exact .inr rfl

/-- C10.  The math-channel operations never validate the math channel number:
for every integer `num` (zero and negatives included) they raise no error and
transmit the `MATH<num>` command built from that integer, validating only the
`math_type` enumeration. -/
theorem math_channel_no_num_validation (num : ℤ) (math_type : String)
    (hty : math_type ∈ MATH_TYPES) (f r₁ r₂ : String) :
    set_math_channel_type num math_type = ([.mathType num math_type], .ok ()) ∧
    get_math_channel_type num r₁ = ([.mathTypeQ num], .ok r₁) ∧
    set_math_channel_function num f = ([.mathDefine num f], .ok ()) ∧
    get_math_channel_function num r₂ = ([.mathDefineQ num], .ok (pyStripQuotes (pyStripWs r₂))) := by
  simp [set_math_channel_type, get_math_channel_type, set_math_channel_function,
        get_math_channel_function, hty]

/-- Witness for C10 at the negative math channel number `num = -1`. -/
theorem math_channel_no_num_validation_witness :
    "FFT" ∈ MATH_TYPES ∧
    set_math_channel_type (-1) "FFT" = ([.mathType (-1) "FFT"], .ok ()) :=
  ⟨by decide, (math_channel_no_num_validation (-1) "FFT" (by decide) "" "" "").1⟩

end TekMDO
